import Mathlib

/-!
Verification development for `src/Native/libmultihash/equi/equihashverify.cc`
of the Zero-MiningCore repository.

The file under study is glue code: four wrapper functions
`verifyEH_96_5`, `verifyEH_200_9`, `verifyEH_144_5`, `verifyEH_192_7`,
each of which length-checks the solution blob, selects a default
personalization tag when the caller passes NULL, initialises a BLAKE2b
hash state with the variant's (N, K) and the personalization, absorbs
the first 140 bytes of the header, and delegates to the external
recursive structural verifier `IsValidSolution`.

The BLAKE2b primitive and `IsValidSolution` live in `crypto/equihash.h`
and libsodium, which are external to the file; we embed them as follows:
the hash state is modelled freely, recording exactly the configuration
and the bytes absorbed (which is all the wrapper feeds into it), and the
structural verifier is an abstract parameter `isValidSolution` of each
wrapper, exactly as the wrapper treats it (an opaque boolean-valued
call on the prepared state and the solution blob).

To reason about the effects a call performs, each wrapper also returns
the trace of observable effects it executes, in order: hash-state
initialisation, hash-state update, I/O, or a write to caller-owned
memory.  The C++ source performs only the first two, and only on the
path that passes the length check; the trace makes this provable.
-/

namespace EquihashVerify

/-- A byte, modelled as a natural number (0..255 in the C source). -/
abbrev Byte := Nat

/-- Observable effects a verification call can perform.  `initState` is
`EhInitialiseState`, `updateState` is `crypto_generichash_blake2b_update`;
`ioEffect` and `writeCaller` are the effects the spec rules out (I/O and
mutation of caller-owned buffers) — the embedding emits them nowhere,
mirroring their absence from the C++ source. -/
inductive Effect where
  | initState (n k : Nat) (personalization : String)
  | updateState (bytes : List Byte)
  | ioEffect (description : String)
  | writeCaller (buffer : String) (index : Nat) (value : Byte)
deriving DecidableEq

/-- The BLAKE2b hash state as the wrapper observes it: the Equihash
parameters and personalization it was configured with, and the byte
stream absorbed so far.  (The real compression function is external to
the file under study; the wrapper only configures and feeds the state.) -/
structure Blake2bState where
  n : Nat
  k : Nat
  personalization : String
  absorbed : List Byte
deriving DecidableEq

/-- `EhInitialiseState(n, k, state, personalization)`: a fresh hash state
configured with (n, k) and the personalization tag, nothing absorbed. -/
def EhInitialiseState (n k : Nat) (personalization : String) : Blake2bState :=
  { n := n, k := k, personalization := personalization, absorbed := [] }

/-- `crypto_generichash_blake2b_update(&state, data, len)`: absorb bytes
into the hash state. -/
def crypto_generichash_blake2b_update (state : Blake2bState)
    (bytes : List Byte) : Blake2bState :=
  { state with absorbed := state.absorbed ++ bytes }

/-- `static const char *default_personalization = "ZcashPoW";` -/
def default_personalization : String := "ZcashPoW"

/-- `static const char *default_personalization_zero = "ZERO_PoW";` -/
def default_personalization_zero : String := "ZERO_PoW"

/-- Modelled from the spec: `requiredSolutionBytes` = packed bit-length of
`solutionIndexCount = 2^K` indices at `(N/(K+1) + 1)` bits each, rounded
up to whole bytes.  The derivation lives in `crypto/equihash.h`, which is
not under `src/`; the wrappers in `equihashverify.cc` hard-code the four
resulting byte counts 68, 100, 400, 1344. -/
def requiredSolutionBytes (n k : Nat) : Nat :=
  (2 ^ k * (n / (k + 1) + 1) + 7) / 8

/-- `verifyEH_96_5`: length-check against 68, default the personalization
to `"ZcashPoW"` when absent, initialise the state with (96, 5), absorb the
first 140 header bytes, and return the structural verifier's verdict.
Returns the boolean result together with the trace of effects performed. -/
def verifyEH_96_5 (isValidSolution : Blake2bState → List Byte → Bool)
    (hdr : List Byte) (soln : List Byte) (personalization : Option String) :
    Bool × List Effect :=
  let n := 96
  let k := 5
  if soln.length ≠ 68 then
    (false, [])
  else
    let pers := personalization.getD default_personalization
    let state := EhInitialiseState n k pers
    let state := crypto_generichash_blake2b_update state (hdr.take 140)
    let isValid := isValidSolution state soln
    (isValid, [Effect.initState n k pers, Effect.updateState (hdr.take 140)])

/-- `verifyEH_200_9`: as `verifyEH_96_5` with (200, 9), required length
1344, default personalization `"ZcashPoW"`. -/
def verifyEH_200_9 (isValidSolution : Blake2bState → List Byte → Bool)
    (hdr : List Byte) (soln : List Byte) (personalization : Option String) :
    Bool × List Effect :=
  let n := 200
  let k := 9
  if soln.length ≠ 1344 then
    (false, [])
  else
    let pers := personalization.getD default_personalization
    let state := EhInitialiseState n k pers
    let state := crypto_generichash_blake2b_update state (hdr.take 140)
    let isValid := isValidSolution state soln
    (isValid, [Effect.initState n k pers, Effect.updateState (hdr.take 140)])

/-- `verifyEH_144_5`: as `verifyEH_96_5` with (144, 5), required length
100, default personalization `"ZcashPoW"`. -/
def verifyEH_144_5 (isValidSolution : Blake2bState → List Byte → Bool)
    (hdr : List Byte) (soln : List Byte) (personalization : Option String) :
    Bool × List Effect :=
  let n := 144
  let k := 5
  if soln.length ≠ 100 then
    (false, [])
  else
    let pers := personalization.getD default_personalization
    let state := EhInitialiseState n k pers
    let state := crypto_generichash_blake2b_update state (hdr.take 140)
    let isValid := isValidSolution state soln
    (isValid, [Effect.initState n k pers, Effect.updateState (hdr.take 140)])

/-- `verifyEH_192_7`: as `verifyEH_96_5` with (192, 7), required length
400, default personalization `"ZERO_PoW"` (`default_personalization_zero`). -/
def verifyEH_192_7 (isValidSolution : Blake2bState → List Byte → Bool)
    (hdr : List Byte) (soln : List Byte) (personalization : Option String) :
    Bool × List Effect :=
  let n := 192
  let k := 7
  if soln.length ≠ 400 then
    (false, [])
  else
    let pers := personalization.getD default_personalization_zero
    let state := EhInitialiseState n k pers
    let state := crypto_generichash_blake2b_update state (hdr.take 140)
    let isValid := isValidSolution state soln
    (isValid, [Effect.initState n k pers, Effect.updateState (hdr.take 140)])

/-- C1: For every variant and every header, personalization and solution
blob, if the solution's byte length differs from the variant's required
length (68, 100, 400, 1344 respectively), the verify operation returns
`false` immediately with an empty effect trace — the hash state is never
initialised and the hash primitive is never invoked. -/
theorem C1_wrong_length_rejected_without_hashing :
    (∀ iv hdr soln pers, soln.length ≠ 68 →
      verifyEH_96_5 iv hdr soln pers = (false, [])) ∧
    (∀ iv hdr soln pers, soln.length ≠ 100 →
      verifyEH_144_5 iv hdr soln pers = (false, [])) ∧
    (∀ iv hdr soln pers, soln.length ≠ 400 →
      verifyEH_192_7 iv hdr soln pers = (false, [])) ∧
    (∀ iv hdr soln pers, soln.length ≠ 1344 →
      verifyEH_200_9 iv hdr soln pers = (false, [])) := by
  refine ⟨?_, ?_, ?_, ?_⟩ <;> intro iv hdr soln pers h <;>
    simp [verifyEH_96_5, verifyEH_144_5, verifyEH_192_7, verifyEH_200_9, h]

/-- Witness for C1 at concrete inputs: the empty solution blob has the
wrong length for every variant and is rejected with an empty trace. -/
theorem C1_wrong_length_rejected_without_hashing_witness :
    verifyEH_96_5 (fun _ _ => true) [] [] none = (false, []) ∧
    verifyEH_144_5 (fun _ _ => true) [] [] none = (false, []) ∧
    verifyEH_192_7 (fun _ _ => true) [] [] none = (false, []) ∧
    verifyEH_200_9 (fun _ _ => true) [] [] none = (false, []) :=
  ⟨C1_wrong_length_rejected_without_hashing.1 _ [] [] none (by decide),
   C1_wrong_length_rejected_without_hashing.2.1 _ [] [] none (by decide),
   C1_wrong_length_rejected_without_hashing.2.2.1 _ [] [] none (by decide),
   C1_wrong_length_rejected_without_hashing.2.2.2 _ [] [] none (by decide)⟩

/-- C2: whenever the solution blob has the correct length for the variant,
the verify operation returns exactly the boolean the external structural
verifier produces on the prepared hash state and the solution blob. -/
theorem C2_verdict_propagated_unchanged :
    (∀ iv hdr soln pers, soln.length = 68 →
      (verifyEH_96_5 iv hdr soln pers).1 =
        iv (crypto_generichash_blake2b_update
              (EhInitialiseState 96 5 (pers.getD default_personalization))
              (hdr.take 140)) soln) ∧
    (∀ iv hdr soln pers, soln.length = 100 →
      (verifyEH_144_5 iv hdr soln pers).1 =
        iv (crypto_generichash_blake2b_update
              (EhInitialiseState 144 5 (pers.getD default_personalization))
              (hdr.take 140)) soln) ∧
    (∀ iv hdr soln pers, soln.length = 400 →
      (verifyEH_192_7 iv hdr soln pers).1 =
        iv (crypto_generichash_blake2b_update
              (EhInitialiseState 192 7 (pers.getD default_personalization_zero))
              (hdr.take 140)) soln) ∧
    (∀ iv hdr soln pers, soln.length = 1344 →
      (verifyEH_200_9 iv hdr soln pers).1 =
        iv (crypto_generichash_blake2b_update
              (EhInitialiseState 200 9 (pers.getD default_personalization))
              (hdr.take 140)) soln) := by
  refine ⟨?_, ?_, ?_, ?_⟩ <;> intro iv hdr soln pers h <;>
    simp [verifyEH_96_5, verifyEH_144_5, verifyEH_192_7, verifyEH_200_9, h]

/-- Witness for C2 at a concrete input: a 68-byte all-zero blob under the
(96,5) variant with a constantly-true structural verifier yields that
verifier's verdict on the prepared state. -/
theorem C2_verdict_propagated_unchanged_witness :
    (verifyEH_96_5 (fun _ _ => true) [] (List.replicate 68 0) none).1 =
      (fun _ _ => true) (crypto_generichash_blake2b_update
          (EhInitialiseState 96 5
            ((none : Option String).getD default_personalization))
          (List.take 140 [])) (List.replicate 68 0) :=
  C2_verdict_propagated_unchanged.1 _ [] (List.replicate 68 0) none (by simp)

/-- C3: with the personalization argument absent, the (192,7) variant
configures the hash state with the tag `"ZERO_PoW"` while (96,5), (144,5)
and (200,9) configure it with `"ZcashPoW"`; the two tags differ, and no
hash state of (192,7) is ever initialised with the primary domain's tag
(nor vice versa) when the argument is absent. -/
theorem C3_distinct_default_personalization_domains :
    default_personalization_zero ≠ default_personalization ∧
    (∀ iv hdr soln n k p, Effect.initState n k p ∈
        (verifyEH_192_7 iv hdr soln none).2 → p = default_personalization_zero) ∧
    (∀ iv hdr soln n k p, Effect.initState n k p ∈
        (verifyEH_96_5 iv hdr soln none).2 → p = default_personalization) ∧
    (∀ iv hdr soln n k p, Effect.initState n k p ∈
        (verifyEH_144_5 iv hdr soln none).2 → p = default_personalization) ∧
    (∀ iv hdr soln n k p, Effect.initState n k p ∈
        (verifyEH_200_9 iv hdr soln none).2 → p = default_personalization) ∧
    (∀ iv hdr soln, soln.length = 400 →
      Effect.initState 192 7 default_personalization_zero ∈
        (verifyEH_192_7 iv hdr soln none).2) ∧
    (∀ iv hdr soln, soln.length = 68 →
      Effect.initState 96 5 default_personalization ∈
        (verifyEH_96_5 iv hdr soln none).2) := by
  refine ⟨by decide, ?_, ?_, ?_, ?_, ?_, ?_⟩
  · intro iv hdr soln n k p hmem
    by_cases h : soln.length = 400
    · simp [verifyEH_192_7, h] at hmem
      tauto
    · simp [verifyEH_192_7, h] at hmem
  · intro iv hdr soln n k p hmem
    by_cases h : soln.length = 68
    · simp [verifyEH_96_5, h] at hmem
      tauto
    · simp [verifyEH_96_5, h] at hmem
  · intro iv hdr soln n k p hmem
    by_cases h : soln.length = 100
    · simp [verifyEH_144_5, h] at hmem
      tauto
    · simp [verifyEH_144_5, h] at hmem
  · intro iv hdr soln n k p hmem
    by_cases h : soln.length = 1344
    · simp [verifyEH_200_9, h] at hmem
      tauto
    · simp [verifyEH_200_9, h] at hmem
  · intro iv hdr soln h
    simp [verifyEH_192_7, h]
  · intro iv hdr soln h
    simp [verifyEH_96_5, h]

/-- Witness for C3 at concrete inputs: with the personalization absent,
correctly sized blobs lead to initialisation with the variant's own tag. -/
theorem C3_distinct_default_personalization_domains_witness :
    Effect.initState 192 7 default_personalization_zero ∈
      (verifyEH_192_7 (fun _ _ => true) [] (List.replicate 400 0) none).2 ∧
    Effect.initState 96 5 default_personalization ∈
      (verifyEH_96_5 (fun _ _ => true) [] (List.replicate 68 0) none).2 :=
  ⟨C3_distinct_default_personalization_domains.2.2.2.2.2.1 _ []
      (List.replicate 400 0) (List.length_replicate 400 0),
   C3_distinct_default_personalization_domains.2.2.2.2.2.2 _ []
      (List.replicate 68 0) (List.length_replicate 68 0)⟩

/-- C4: the required solution byte length checked by each verify
operation equals the packed bit-length of `2^K` indices at
`(N/(K+1) + 1)` bits each, rounded up to bytes: 68 for (96,5), 100 for
(144,5), 400 for (192,7), 1344 for (200,9); a solution whose length
differs from that derived value is rejected. -/
theorem C4_required_solution_bytes_formula :
    requiredSolutionBytes 96 5 = 68 ∧
    requiredSolutionBytes 144 5 = 100 ∧
    requiredSolutionBytes 192 7 = 400 ∧
    requiredSolutionBytes 200 9 = 1344 ∧
    (∀ iv hdr soln pers, soln.length ≠ requiredSolutionBytes 96 5 →
      (verifyEH_96_5 iv hdr soln pers).1 = false) ∧
    (∀ iv hdr soln pers, soln.length ≠ requiredSolutionBytes 144 5 →
      (verifyEH_144_5 iv hdr soln pers).1 = false) ∧
    (∀ iv hdr soln pers, soln.length ≠ requiredSolutionBytes 192 7 →
      (verifyEH_192_7 iv hdr soln pers).1 = false) ∧
    (∀ iv hdr soln pers, soln.length ≠ requiredSolutionBytes 200 9 →
      (verifyEH_200_9 iv hdr soln pers).1 = false) := by
  refine ⟨by decide, by decide, by decide, by decide, ?_, ?_, ?_, ?_⟩ <;>
    intro iv hdr soln pers h <;>
    simp [requiredSolutionBytes] at h <;>
    simp [verifyEH_96_5, verifyEH_144_5, verifyEH_192_7, verifyEH_200_9, h]

/-- Witness for C4 at a concrete input: the empty blob's length differs
from every variant's derived requirement and is rejected. -/
theorem C4_required_solution_bytes_formula_witness :
    (verifyEH_96_5 (fun _ _ => true) [] [] none).1 = false ∧
    (verifyEH_144_5 (fun _ _ => true) [] [] none).1 = false ∧
    (verifyEH_192_7 (fun _ _ => true) [] [] none).1 = false ∧
    (verifyEH_200_9 (fun _ _ => true) [] [] none).1 = false :=
  ⟨C4_required_solution_bytes_formula.2.2.2.2.1 _ [] [] none (by decide),
   C4_required_solution_bytes_formula.2.2.2.2.2.1 _ [] [] none (by decide),
   C4_required_solution_bytes_formula.2.2.2.2.2.2.1 _ [] [] none (by decide),
   C4_required_solution_bytes_formula.2.2.2.2.2.2.2 _ [] [] none (by decide)⟩

/-- C5: in every call that passes the length check, the effect trace is
exactly hash-state initialisation with the variant's (N, K) and the
effective personalization, followed by exactly one update with exactly
the first 140 header bytes — nothing else — and the state handed to the
structural verifier is exactly the state built by that sequence. -/
theorem C5_state_built_by_exact_sequence :
    (∀ iv hdr soln pers, soln.length = 68 →
      verifyEH_96_5 iv hdr soln pers =
        (iv (crypto_generichash_blake2b_update
              (EhInitialiseState 96 5 (pers.getD default_personalization))
              (hdr.take 140)) soln,
         [Effect.initState 96 5 (pers.getD default_personalization),
          Effect.updateState (hdr.take 140)])) ∧
    (∀ iv hdr soln pers, soln.length = 100 →
      verifyEH_144_5 iv hdr soln pers =
        (iv (crypto_generichash_blake2b_update
              (EhInitialiseState 144 5 (pers.getD default_personalization))
              (hdr.take 140)) soln,
         [Effect.initState 144 5 (pers.getD default_personalization),
          Effect.updateState (hdr.take 140)])) ∧
    (∀ iv hdr soln pers, soln.length = 400 →
      verifyEH_192_7 iv hdr soln pers =
        (iv (crypto_generichash_blake2b_update
              (EhInitialiseState 192 7 (pers.getD default_personalization_zero))
              (hdr.take 140)) soln,
         [Effect.initState 192 7 (pers.getD default_personalization_zero),
          Effect.updateState (hdr.take 140)])) ∧
    (∀ iv hdr soln pers, soln.length = 1344 →
      verifyEH_200_9 iv hdr soln pers =
        (iv (crypto_generichash_blake2b_update
              (EhInitialiseState 200 9 (pers.getD default_personalization))
              (hdr.take 140)) soln,
         [Effect.initState 200 9 (pers.getD default_personalization),
          Effect.updateState (hdr.take 140)])) := by
  refine ⟨?_, ?_, ?_, ?_⟩ <;> intro iv hdr soln pers h <;>
    simp [verifyEH_96_5, verifyEH_144_5, verifyEH_192_7, verifyEH_200_9, h]

/-- Witness for C5 at a concrete input: a correctly sized (96,5) call
with the personalization absent yields exactly the init-then-update
trace and the verifier's verdict on the resulting state. -/
theorem C5_state_built_by_exact_sequence_witness :
    verifyEH_96_5 (fun _ _ => true) [] (List.replicate 68 0) none =
      ((fun _ _ => true) (crypto_generichash_blake2b_update
          (EhInitialiseState 96 5
            ((none : Option String).getD default_personalization))
          (List.take 140 [])) (List.replicate 68 0),
       [Effect.initState 96 5
          ((none : Option String).getD default_personalization),
        Effect.updateState (List.take 140 [])]) :=
  C5_state_built_by_exact_sequence.1 _ [] (List.replicate 68 0) none
    (List.length_replicate 68 0)

/-- C6: every verify call terminates with a boolean result and signals
no error to its caller: the result is either `false` (every internal
failure collapses to `false`) or the structural verifier's verdict on
some state. -/
theorem C6_all_failures_collapse_to_false :
    ∀ iv hdr soln pers,
      ((verifyEH_96_5 iv hdr soln pers).1 = false ∨
        ∃ s, (verifyEH_96_5 iv hdr soln pers).1 = iv s soln) ∧
      ((verifyEH_144_5 iv hdr soln pers).1 = false ∨
        ∃ s, (verifyEH_144_5 iv hdr soln pers).1 = iv s soln) ∧
      ((verifyEH_192_7 iv hdr soln pers).1 = false ∨
        ∃ s, (verifyEH_192_7 iv hdr soln pers).1 = iv s soln) ∧
      ((verifyEH_200_9 iv hdr soln pers).1 = false ∨
        ∃ s, (verifyEH_200_9 iv hdr soln pers).1 = iv s soln) := by
  intro iv hdr soln pers
  refine ⟨?_, ?_, ?_, ?_⟩
  · by_cases h : soln.length = 68
    · exact Or.inr ⟨crypto_generichash_blake2b_update
          (EhInitialiseState 96 5 (pers.getD default_personalization))
          (hdr.take 140), by simp [verifyEH_96_5, h]⟩
    · exact Or.inl (by simp [verifyEH_96_5, h])
  · by_cases h : soln.length = 100
    · exact Or.inr ⟨crypto_generichash_blake2b_update
          (EhInitialiseState 144 5 (pers.getD default_personalization))
          (hdr.take 140), by simp [verifyEH_144_5, h]⟩
    · exact Or.inl (by simp [verifyEH_144_5, h])
  · by_cases h : soln.length = 400
    · exact Or.inr ⟨crypto_generichash_blake2b_update
          (EhInitialiseState 192 7 (pers.getD default_personalization_zero))
          (hdr.take 140), by simp [verifyEH_192_7, h]⟩
    · exact Or.inl (by simp [verifyEH_192_7, h])
  · by_cases h : soln.length = 1344
    · exact Or.inr ⟨crypto_generichash_blake2b_update
          (EhInitialiseState 200 9 (pers.getD default_personalization))
          (hdr.take 140), by simp [verifyEH_200_9, h]⟩
    · exact Or.inl (by simp [verifyEH_200_9, h])

/-- C7: each verify operation is deterministic and free of hidden state:
two calls with identical structural verifier, header, solution and
personalization return identical results. -/
theorem C7_deterministic :
    ∀ iv hdr soln pers hdr2 soln2 pers2,
      hdr = hdr2 → soln = soln2 → pers = pers2 →
      verifyEH_96_5 iv hdr soln pers = verifyEH_96_5 iv hdr2 soln2 pers2 ∧
      verifyEH_144_5 iv hdr soln pers = verifyEH_144_5 iv hdr2 soln2 pers2 ∧
      verifyEH_192_7 iv hdr soln pers = verifyEH_192_7 iv hdr2 soln2 pers2 ∧
      verifyEH_200_9 iv hdr soln pers = verifyEH_200_9 iv hdr2 soln2 pers2 := by
  intro iv hdr soln pers hdr2 soln2 pers2 h1 h2 h3
  subst h1; subst h2; subst h3
  exact ⟨rfl, rfl, rfl, rfl⟩

/-- Witness for C7 at a concrete input: repeating an identical call
yields an identical result. -/
theorem C7_deterministic_witness :
    verifyEH_96_5 (fun _ _ => true) [] [] none =
      verifyEH_96_5 (fun _ _ => true) [] [] none :=
  (C7_deterministic (fun _ _ => true) [] [] none [] [] none rfl rfl rfl).1

/-- C8: every effect any verify call performs is a hash-state
initialisation or a hash-state update — no call ever performs I/O or
writes to a caller-owned buffer, so the header, solution and
personalization the caller supplied are left unchanged. -/
theorem C8_no_io_no_caller_mutation :
    ∀ iv hdr soln pers e,
      (e ∈ (verifyEH_96_5 iv hdr soln pers).2 ∨
       e ∈ (verifyEH_144_5 iv hdr soln pers).2 ∨
       e ∈ (verifyEH_192_7 iv hdr soln pers).2 ∨
       e ∈ (verifyEH_200_9 iv hdr soln pers).2) →
      ((∃ n k p, e = Effect.initState n k p) ∨
       ∃ bs, e = Effect.updateState bs) := by
  intro iv hdr soln pers e hmem
  rcases hmem with hmem | hmem | hmem | hmem
  · by_cases h : soln.length = 68
    · simp [verifyEH_96_5, h] at hmem
      rcases hmem with rfl | rfl
      · exact Or.inl ⟨_, _, _, rfl⟩
      · exact Or.inr ⟨_, rfl⟩
    · simp [verifyEH_96_5, h] at hmem
  · by_cases h : soln.length = 100
    · simp [verifyEH_144_5, h] at hmem
      rcases hmem with rfl | rfl
      · exact Or.inl ⟨_, _, _, rfl⟩
      · exact Or.inr ⟨_, rfl⟩
    · simp [verifyEH_144_5, h] at hmem
  · by_cases h : soln.length = 400
    · simp [verifyEH_192_7, h] at hmem
      rcases hmem with rfl | rfl
      · exact Or.inl ⟨_, _, _, rfl⟩
      · exact Or.inr ⟨_, rfl⟩
    · simp [verifyEH_192_7, h] at hmem
  · by_cases h : soln.length = 1344
    · simp [verifyEH_200_9, h] at hmem
      rcases hmem with rfl | rfl
      · exact Or.inl ⟨_, _, _, rfl⟩
      · exact Or.inr ⟨_, rfl⟩
    · simp [verifyEH_200_9, h] at hmem

/-- Witness for C8 at a concrete input: the initialisation effect that a
correctly sized (96,5) call performs is indeed an init or update effect. -/
theorem C8_no_io_no_caller_mutation_witness :
    (∃ n k p, Effect.initState 96 5 default_personalization =
        Effect.initState n k p) ∨
      ∃ bs, Effect.initState 96 5 default_personalization =
        Effect.updateState bs :=
  C8_no_io_no_caller_mutation (fun _ _ => true) [] (List.replicate 68 0) none
    (Effect.initState 96 5 default_personalization)
    (Or.inl (by simp [verifyEH_96_5]))

/-- C9: for every variant, header and solution, calling verify with an
absent personalization yields exactly the same result as calling it with
the variant's default tag passed explicitly: `"ZcashPoW"` for (96,5),
(144,5) and (200,9), `"ZERO_PoW"` for (192,7). -/
theorem C9_null_equals_explicit_default :
    ∀ iv hdr soln,
      verifyEH_96_5 iv hdr soln none =
        verifyEH_96_5 iv hdr soln (some "ZcashPoW") ∧
      verifyEH_144_5 iv hdr soln none =
        verifyEH_144_5 iv hdr soln (some "ZcashPoW") ∧
      verifyEH_200_9 iv hdr soln none =
        verifyEH_200_9 iv hdr soln (some "ZcashPoW") ∧
      verifyEH_192_7 iv hdr soln none =
        verifyEH_192_7 iv hdr soln (some "ZERO_PoW") := by
  intro iv hdr soln
  refine ⟨?_, ?_, ?_, ?_⟩ <;>
    simp [verifyEH_96_5, verifyEH_144_5, verifyEH_200_9, verifyEH_192_7,
      default_personalization, default_personalization_zero]

/-- C10: the verification result depends only on the first 140 bytes of
the header: any two headers agreeing on bytes 0 through 139 give equal
results for identical solution and personalization. -/
theorem C10_only_first_140_header_bytes_matter :
    ∀ iv soln pers hdr hdr2, hdr.take 140 = hdr2.take 140 →
      verifyEH_96_5 iv hdr soln pers = verifyEH_96_5 iv hdr2 soln pers ∧
      verifyEH_144_5 iv hdr soln pers = verifyEH_144_5 iv hdr2 soln pers ∧
      verifyEH_192_7 iv hdr soln pers = verifyEH_192_7 iv hdr2 soln pers ∧
      verifyEH_200_9 iv hdr soln pers = verifyEH_200_9 iv hdr2 soln pers := by
  intro iv soln pers hdr hdr2 h
  refine ⟨?_, ?_, ?_, ?_⟩ <;>
    simp only [verifyEH_96_5, verifyEH_144_5, verifyEH_192_7,
      verifyEH_200_9, h]

/-- Witness for C10 at concrete inputs: two 141-byte headers that agree
on their first 140 bytes and differ in the last byte verify identically. -/
theorem C10_only_first_140_header_bytes_matter_witness :
    verifyEH_96_5 (fun _ _ => true) (List.replicate 140 0 ++ [1]) [] none =
      verifyEH_96_5 (fun _ _ => true) (List.replicate 140 0 ++ [2]) [] none :=
  (C10_only_first_140_header_bytes_matter (fun _ _ => true) [] none
    (List.replicate 140 0 ++ [1]) (List.replicate 140 0 ++ [2])
    (by simp)).1

end EquihashVerify
